import Mathlib

/-!
Verification of the blood-glucose analyzer core services.

Text processed by the services (report text, test-type names, units) is
modelled as a list of Unicode code points (`List Nat`); `str2list` injects a
Lean string literal into that representation.  Numeric values are modelled
as rationals.  Each definition below is a direct translation of the
corresponding Python function in `src/backend/services/`.
-/

namespace BG

/-- Code points of a string literal. -/
def str2list (s : String) : List Nat := s.toList.map Char.toNat

/-- Rebuild a string from code points (used only inside error messages). -/
def list2str (l : List Nat) : String := String.mk (l.map Char.ofNat)

/-- Python whitespace (the set stripped by `str.strip` and matched by `\s`):
space, tab, newline, carriage return, vertical tab, form feed. -/
def isSpaceN (c : Nat) : Bool :=
  decide (c = 32 ∨ c = 9 ∨ c = 10 ∨ c = 13 ∨ c = 11 ∨ c = 12)

/-- ASCII decimal digit, as matched by the regex class `\d`. -/
def isDigitN (c : Nat) : Bool := decide (48 ≤ c ∧ c ≤ 57)

/-- ASCII lower-casing of one code point, as done by `str.lower` on the
ASCII inputs handled here. -/
def lowerN (c : Nat) : Nat := if 65 ≤ c ∧ c ≤ 90 then c + 32 else c

/-- `str.lower`. -/
def lowerL (l : List Nat) : List Nat := l.map lowerN

/-- `str.strip()`: drop leading and trailing whitespace. -/
def stripL (l : List Nat) : List Nat :=
  (l.dropWhile isSpaceN).rdropWhile isSpaceN

/-- Substring containment, Python's `needle in haystack`. -/
def hasInfix (text kw : List Nat) : Bool :=
  match text with
  | [] => kw.isEmpty
  | _ :: t => kw.isPrefixOf text || hasInfix t kw

end BG

namespace BG

/-! ### Classification service (`classification_service.py`) -/

/-- Conversion factor: mmol/L to mg/dL. -/
def MMOL_TO_MGDL : ℚ := 18

/-- One entry of a `ranges` list in `THRESHOLDS`; `max := none` models the
Python `float('inf')` sentinel of the last band. -/
structure ThresholdBand where
  max : Option ℚ
  classification : String
  severity : String
deriving DecidableEq

/-- One value of the `THRESHOLDS` dict. -/
structure ThresholdConfig where
  unit : String
  ranges : List ThresholdBand
  normal_min : ℚ
  normal_max : ℚ
  display_name : String
deriving DecidableEq

/-- `THRESHOLDS['fasting']`. -/
def fastingConfig : ThresholdConfig :=
  { unit := "mg/dL"
    ranges :=
      [ ⟨some 70, "Low", "moderate"⟩
      , ⟨some 99, "Normal", "low"⟩
      , ⟨some 125, "Prediabetes", "moderate"⟩
      , ⟨none, "Diabetes", "high"⟩ ]
    normal_min := 70
    normal_max := 99
    display_name := "Fasting Blood Sugar (FBS)" }

/-- `THRESHOLDS['hba1c']`. -/
def hba1cConfig : ThresholdConfig :=
  { unit := "%"
    ranges :=
      [ ⟨some 4, "Low", "moderate"⟩
      , ⟨some (56/10), "Normal", "low"⟩
      , ⟨some (64/10), "Prediabetes", "moderate"⟩
      , ⟨none, "Diabetes", "high"⟩ ]
    normal_min := 4
    normal_max := 56/10
    display_name := "HbA1c (Glycated Hemoglobin)" }

/-- `THRESHOLDS['ppbs']`. -/
def ppbsConfig : ThresholdConfig :=
  { unit := "mg/dL"
    ranges :=
      [ ⟨some 70, "Low", "moderate"⟩
      , ⟨some 139, "Normal", "low"⟩
      , ⟨some 199, "Prediabetes", "moderate"⟩
      , ⟨none, "Diabetes", "high"⟩ ]
    normal_min := 70
    normal_max := 139
    display_name := "Post-Prandial Blood Sugar (PPBS)" }

/-- `THRESHOLDS['rbs']`. -/
def rbsConfig : ThresholdConfig :=
  { unit := "mg/dL"
    ranges :=
      [ ⟨some 70, "Low", "moderate"⟩
      , ⟨some 139, "Normal", "low"⟩
      , ⟨some 199, "Needs Monitoring", "moderate"⟩
      , ⟨none, "Diabetes", "high"⟩ ]
    normal_min := 70
    normal_max := 139
    display_name := "Random Blood Sugar (RBS)" }

/-- `THRESHOLDS['ogtt']`. -/
def ogttConfig : ThresholdConfig :=
  { unit := "mg/dL"
    ranges :=
      [ ⟨some 70, "Low", "moderate"⟩
      , ⟨some 139, "Normal", "low"⟩
      , ⟨some 199, "Prediabetes", "moderate"⟩
      , ⟨none, "Diabetes", "high"⟩ ]
    normal_min := 70
    normal_max := 139
    display_name := "Oral Glucose Tolerance Test (OGTT 2-hour)" }

/-- The `THRESHOLDS` dict, in insertion order. -/
def THRESHOLDS : List (List Nat × ThresholdConfig) :=
  [ (str2list "fasting", fastingConfig)
  , (str2list "hba1c", hba1cConfig)
  , (str2list "ppbs", ppbsConfig)
  , (str2list "rbs", rbsConfig)
  , (str2list "ogtt", ogttConfig) ]

/-- Dict lookup `THRESHOLDS[test_type]` / membership `test_type in THRESHOLDS`. -/
def thresholdsFor (test_type : List Nat) : Option ThresholdConfig :=
  THRESHOLDS.lookup test_type

/-- `convert_to_mgdl`: convert a glucose value to mg/dL if needed. -/
def convert_to_mgdl (value : ℚ) (unit : List Nat) (test_type : List Nat) :
    ℚ × List Nat :=
  if test_type = str2list "hba1c" then (value, str2list "%")
  else if lowerL unit = str2list "mmol/l" ∨ lowerL unit = str2list "mmol" then
    (value * MMOL_TO_MGDL, str2list "mg/dL")
  else (value, str2list "mg/dL")

/-- `validate_input`: returns `(is_valid, error_message)`.  The Python
`isinstance(value, (int, float))` check is rendered vacuous here because
values are rationals by type. -/
def validate_input (test_type : List Nat) (value : ℚ) : Bool × Option String :=
  if (thresholdsFor test_type).isNone then
    (false, some ("Invalid test type \x27" ++ list2str test_type ++
      "\x27. Valid types: fasting, hba1c, ppbs, rbs, ogtt"))
  else if value < 0 then
    (false, some "Value must be a positive number")
  else if test_type = str2list "hba1c" then
    if 20 < value then
      (false, some "HbA1c value seems unusually high. Please verify the value.")
    else (true, none)
  else if 1000 < value then
    (false, some "Glucose value seems unusually high. Please verify the value.")
  else (true, none)

/-- Return value of `get_classification_for_value`. -/
structure ClassInfo where
  classification : String
  severity : String
  range_min : Option ℚ
  range_max : Option ℚ
deriving DecidableEq

/-- The `for range_info in ranges` loop of `get_classification_for_value`,
carrying the running `prev_max`.  A band with `max := none` (infinity)
always satisfies `value <= max`. -/
def getClassAux (value : ℚ) (prev_max : ℚ) : List ThresholdBand → ClassInfo
  | [] => ⟨"Unknown", "unknown", none, none⟩
  | band :: rest =>
    match band.max with
    | none =>
      ⟨band.classification, band.severity,
        some (prev_max + (if 0 < prev_max then 1 else 0)), none⟩
    | some m =>
      if value ≤ m then
        ⟨band.classification, band.severity,
          some (prev_max + (if 0 < prev_max then 1 else 0)), some m⟩
      else getClassAux value m rest

/-- `get_classification_for_value`.  The Python call sites only reach this
after validation, so the key is always present; a missing key is mapped to
the same fallback record the function's final `return` produces. -/
def get_classification_for_value (test_type : List Nat) (value : ℚ) : ClassInfo :=
  match thresholdsFor test_type with
  | some cfg => getClassAux value 0 cfg.ranges
  | none => ⟨"Unknown", "unknown", none, none⟩

/-- The `RECOMMENDATIONS` table (`test_type -> classification -> text`). -/
def RECOMMENDATIONS : List (List Nat × List (String × String)) :=
  [ (str2list "fasting",
      [ ("Low",
          "Your fasting blood sugar is below the normal range. Low blood sugar " ++
          "(hypoglycemia) can cause symptoms like shakiness, sweating, and confusion. " ++
          "Consider eating regular, balanced meals. Please consult your healthcare " ++
          "provider to understand the cause and appropriate management.")
      , ("Normal",
          "Your fasting blood sugar is within the normal range. Continue maintaining " ++
          "a healthy lifestyle with balanced nutrition, regular physical activity, " ++
          "and routine health check-ups.")
      , ("Prediabetes",
          "Your fasting blood sugar indicates prediabetes. This means your blood sugar " ++
          "is higher than normal but not yet in the diabetes range. The good news is that " ++
          "lifestyle changes can often help prevent or delay progression to type 2 diabetes. " ++
          "Consider consulting your healthcare provider about diet modifications, increasing " ++
          "physical activity, and monitoring your blood sugar regularly.")
      , ("Diabetes",
          "Your fasting blood sugar is in the diabetes range. It\x27s important to consult " ++
          "with a healthcare provider for proper diagnosis and to discuss a management plan. " ++
          "With appropriate care, diet, exercise, and possibly medication, blood sugar " ++
          "levels can be effectively managed.") ])
  , (str2list "hba1c",
      [ ("Low",
          "Your HbA1c level is below the typical range. While this may indicate good " ++
          "blood sugar control, very low levels can sometimes indicate other conditions. " ++
          "Please consult your healthcare provider to discuss your results.")
      , ("Normal",
          "Your HbA1c is within the normal range, indicating good average blood sugar " ++
          "control over the past 2-3 months. Continue your healthy habits and maintain " ++
          "regular check-ups with your healthcare provider.")
      , ("Prediabetes",
          "Your HbA1c indicates prediabetes, meaning your average blood sugar over the " ++
          "past 2-3 months has been elevated. This is an opportunity to make positive " ++
          "changes. Research shows that lifestyle modifications including healthy eating, " ++
          "regular exercise, and maintaining a healthy weight can significantly reduce " ++
          "the risk of developing type 2 diabetes. Consider discussing a prevention " ++
          "plan with your healthcare provider.")
      , ("Diabetes",
          "Your HbA1c is in the diabetes range. This reflects your average blood sugar " ++
          "over the past 2-3 months. Please consult with a healthcare provider for " ++
          "proper diagnosis and to create a personalized management plan. Many people " ++
          "with diabetes lead healthy, active lives with proper care and monitoring.") ])
  , (str2list "ppbs",
      [ ("Low",
          "Your post-meal blood sugar is below the expected range. This could indicate " ++
          "reactive hypoglycemia. Please consult your healthcare provider, especially " ++
          "if you experience symptoms like shakiness or dizziness after meals.")
      , ("Normal",
          "Your post-meal blood sugar is within the normal range. Your body is " ++
          "processing glucose effectively. Continue with your balanced eating habits " ++
          "and regular physical activity.")
      , ("Prediabetes",
          "Your post-meal blood sugar is elevated, which may indicate prediabetes. " ++
          "Your body may be having difficulty processing glucose after meals. " ++
          "Consider discussing with your healthcare provider about dietary adjustments, " ++
          "particularly reducing refined carbohydrates and added sugars.")
      , ("Diabetes",
          "Your post-meal blood sugar is in the diabetes range. Please consult with " ++
          "a healthcare provider for proper evaluation. Post-meal glucose management " ++
          "is important and can be addressed through diet, timing of meals, and " ++
          "potentially medication as recommended by your doctor.") ])
  , (str2list "rbs",
      [ ("Low",
          "Your random blood sugar is below the normal range. If you\x27re experiencing " ++
          "symptoms of low blood sugar, consider having a small snack. Please consult " ++
          "your healthcare provider to understand why your blood sugar may be low.")
      , ("Normal",
          "Your random blood sugar is within the normal range. This is a good sign " ++
          "of healthy glucose metabolism. Continue maintaining your healthy lifestyle.")
      , ("Needs Monitoring",
          "Your random blood sugar is elevated and needs monitoring. While a single " ++
          "random test isn\x27t diagnostic, this result suggests you should follow up " ++
          "with your healthcare provider for additional testing, such as a fasting " ++
          "glucose or HbA1c test.")
      , ("Diabetes",
          "Your random blood sugar is significantly elevated. If you\x27re experiencing " ++
          "symptoms like increased thirst, frequent urination, or unexplained weight loss, " ++
          "please consult a healthcare provider promptly. A proper diagnosis requires " ++
          "additional testing.") ])
  , (str2list "ogtt",
      [ ("Low",
          "Your 2-hour glucose tolerance test result is below the expected range. " ++
          "Please discuss this result with your healthcare provider to understand " ++
          "its significance for your health.")
      , ("Normal",
          "Your glucose tolerance test result is normal. Your body is effectively " ++
          "processing and clearing glucose. Continue your healthy lifestyle habits.")
      , ("Prediabetes",
          "Your glucose tolerance test indicates prediabetes (impaired glucose tolerance). " ++
          "This means your body is taking longer than normal to process glucose. " ++
          "The positive news is that lifestyle interventions have been shown to be " ++
          "very effective at this stage. Consider speaking with your healthcare provider " ++
          "about a diabetes prevention program.")
      , ("Diabetes",
          "Your glucose tolerance test result is in the diabetes range. This indicates " ++
          "that your body has difficulty processing glucose. Please consult with a " ++
          "healthcare provider for confirmation and to discuss a comprehensive " ++
          "management approach.") ]) ]

/-- `get_recommendation`: a double dict `.get` with a generic fallback. -/
def get_recommendation (test_type : List Nat) (classification : String) : String :=
  match RECOMMENDATIONS.lookup test_type with
  | none => "Please consult with your healthcare provider to discuss your results."
  | some tbl =>
    match tbl.lookup classification with
    | none => "Please consult with your healthcare provider to discuss your results."
    | some r => r

/-- The static `DISCLAIMER` string. -/
def DISCLAIMER : String :=
  "IMPORTANT: This analysis is for educational and informational purposes only. " ++
  "It is not intended to be a substitute for professional medical advice, diagnosis, " ++
  "or treatment. Always seek the advice of your physician or other qualified health " ++
  "provider with any questions you may have regarding a medical condition. Never " ++
  "disregard professional medical advice or delay in seeking it because of information " ++
  "provided by this tool."

/-- Python `round(q, 1)`. -/
def round1 (q : ℚ) : ℚ := (round (q * 10) : ℤ) / 10

/-- Python `round(q, 2)`. -/
def round2 (q : ℚ) : ℚ := (round (q * 100) : ℤ) / 100

/-- A successful return dict of `classify_glucose`. -/
structure GlucoseSuccess where
  test_type : List Nat
  display_name : String
  original_value : ℚ
  original_unit : List Nat
  value : ℚ
  unit : List Nat
  classification : String
  severity : String
  range_min : Option ℚ
  range_max : Option ℚ
  normal_min : ℚ
  normal_max : ℚ
  recommendation : String
  disclaimer : String
deriving DecidableEq

/-- Return value of `classify_glucose`: either `{'success': False, 'error': ...}`
or the full success dict. -/
inductive ClassifyResult where
  | failure (error : String)
  | ok (r : GlucoseSuccess)
deriving DecidableEq

/-- `classify_glucose`. -/
def classify_glucose (test_type₀ : List Nat) (value : ℚ)
    (unit : List Nat) : ClassifyResult :=
  let test_type := stripL (lowerL test_type₀)
  let v := validate_input test_type value
  if v.1 then
    let conv := convert_to_mgdl value unit test_type
    let ci := get_classification_for_value test_type conv.1
    let recommendation := get_recommendation test_type ci.classification
    match thresholdsFor test_type with
    | some cfg =>
      .ok
        { test_type := test_type
          display_name := cfg.display_name
          original_value := value
          original_unit := unit
          value := round1 conv.1
          unit := conv.2
          classification := ci.classification
          severity := ci.severity
          range_min := ci.range_min
          range_max := ci.range_max
          normal_min := cfg.normal_min
          normal_max := cfg.normal_max
          recommendation := recommendation
          disclaimer := DISCLAIMER }
    | none => .failure ""
  else .failure (v.2.getD "")

end BG

namespace BG

/-! ### Helper views on classification results -/

/-- Classification label of a result, when successful. -/
def classificationOf : ClassifyResult → Option String
  | .ok r => some r.classification
  | .failure _ => none

/-- Whether `classify_glucose` returned the error dict. -/
def isFailureResult : ClassifyResult → Bool
  | .failure _ => true
  | .ok _ => false

/-- Normalized test-type field of a successful result. -/
def testTypeOf : ClassifyResult → Option (List Nat)
  | .ok r => some r.test_type
  | .failure _ => none

/-- Forget the echoed `original_value` / `original_unit` fields of a result. -/
def eraseOriginal : ClassifyResult → ClassifyResult
  | .ok r => .ok { r with original_value := 0, original_unit := [] }
  | .failure e => .failure e

/-- Spec-side band predicate: the band's `max` is `≥` the canonical value
(`none` models the unbounded last band). -/
def bandMaxGe (v : ℚ) (b : ThresholdBand) : Bool :=
  match b.max with
  | none => true
  | some m => decide (v ≤ m)

/-! ### Lemmas about the text utilities -/

theorem lowerN_idem (c : Nat) : lowerN (lowerN c) = lowerN c := by
  simp only [lowerN]
  split_ifs <;> omega

theorem isSpaceN_lowerN (c : Nat) : isSpaceN (lowerN c) = isSpaceN c := by
  simp only [lowerN]
  split_ifs with h
  · simp only [isSpaceN]
    rw [decide_eq_decide]
    omega
  · rfl

theorem lowerL_idem (l : List Nat) : lowerL (lowerL l) = lowerL l := by
  simp [lowerL, List.map_map, Function.comp_def, lowerN_idem]

theorem dropWhile_lowerL (l : List Nat) :
    (lowerL l).dropWhile isSpaceN = lowerL (l.dropWhile isSpaceN) := by
  induction l with
  | nil => rfl
  | cons c t ih =>
    simp only [lowerL, List.map_cons, List.dropWhile_cons, isSpaceN_lowerN]
    by_cases h : isSpaceN c = true
    · simpa [h, lowerL] using ih
    · simp [h, lowerL]

theorem rdropWhile_lowerL (l : List Nat) :
    (lowerL l).rdropWhile isSpaceN = lowerL (l.rdropWhile isSpaceN) := by
  simp only [List.rdropWhile]
  rw [show (lowerL l).reverse = lowerL l.reverse by simp [lowerL],
    dropWhile_lowerL]
  simp [lowerL]

theorem strip_lower_comm (l : List Nat) :
    stripL (lowerL l) = lowerL (stripL l) := by
  simp only [stripL]
  rw [dropWhile_lowerL, rdropWhile_lowerL]

theorem dropWhile_rdropWhile_of_dropWhile_eq {l : List Nat}
    (h : l.dropWhile isSpaceN = l) :
    (l.rdropWhile isSpaceN).dropWhile isSpaceN = l.rdropWhile isSpaceN := by
  cases hB : l.rdropWhile isSpaceN with
  | nil => rfl
  | cons b bs =>
    obtain ⟨t, ht⟩ : (b :: bs) <+: l := hB ▸ List.rdropWhile_prefix isSpaceN l
    have h' : (((b :: bs) ++ t).dropWhile isSpaceN) = (b :: bs) ++ t := by
      rw [ht]; exact h
    have hb : ¬ (isSpaceN b = true) := by
      simpa using List.dropWhile_eq_self_iff.mp h' (by simp)
    simp [List.dropWhile_cons, hb]

theorem stripL_idem (l : List Nat) : stripL (stripL l) = stripL l := by
  simp only [stripL]
  rw [dropWhile_rdropWhile_of_dropWhile_eq (List.dropWhile_idempotent _ _),
    List.rdropWhile_idempotent]

theorem norm_testtype_idem (s : List Nat) :
    stripL (lowerL (lowerL (stripL s))) = stripL (lowerL s) := by
  rw [lowerL_idem, strip_lower_comm (stripL s), stripL_idem, strip_lower_comm s]

end BG

namespace BG

theorem getClassAux_classification (v : ℚ) (pm : ℚ) (l : List ThresholdBand) :
    (getClassAux v pm l).classification =
      ((l.find? (bandMaxGe v)).map ThresholdBand.classification).getD "Unknown" := by
  induction l generalizing pm with
  | nil => rfl
  | cons b rest ih =>
    cases hb : b.max with
    | none =>
      rw [List.find?_cons_of_pos _ (by simp [bandMaxGe, hb])]
      simp [getClassAux, hb]
    | some m =>
      by_cases hv : v ≤ m
      · rw [List.find?_cons_of_pos _ (by simp [bandMaxGe, hb, hv])]
        simp [getClassAux, hb, hv]
      · rw [List.find?_cons_of_neg _ (by simp [bandMaxGe, hb, hv])]
        simp only [getClassAux, hb, if_neg hv]
        exact ih m

/-- Claim C1: for every configured test type and every non-negative value
that passes validation, the classification returned by `classify_glucose`
is the one obtained by walking the test type's ordered ThresholdBand list
and taking the first band whose `max` is `≥` the canonical value; in
particular fasting 99 is "Normal", 100 and 125 are "Prediabetes", and 126
is "Diabetes". -/
theorem claim_C1_classification_matches_band_walk :
    (∀ (tt : List Nat) (cfg : ThresholdConfig) (v : ℚ) (u : List Nat),
      thresholdsFor (stripL (lowerL tt)) = some cfg →
      0 ≤ v →
      (validate_input (stripL (lowerL tt)) v).1 = true →
      ∃ b, cfg.ranges.find?
          (bandMaxGe (convert_to_mgdl v u (stripL (lowerL tt))).1) = some b ∧
        classificationOf (classify_glucose tt v u) = some b.classification)
    ∧ classificationOf
        (classify_glucose (str2list "fasting") 99 (str2list "mg/dL")) = some "Normal"
    ∧ classificationOf
        (classify_glucose (str2list "fasting") 100 (str2list "mg/dL")) = some "Prediabetes"
    ∧ classificationOf
        (classify_glucose (str2list "fasting") 125 (str2list "mg/dL")) = some "Prediabetes"
    ∧ classificationOf
        (classify_glucose (str2list "fasting") 126 (str2list "mg/dL")) = some "Diabetes" := by
  refine ⟨?_, by decide, by decide, by decide, by decide⟩
  intro tt cfg v u hth _hv hval
  have hlast : ∃ b ∈ cfg.ranges,
      bandMaxGe (convert_to_mgdl v u (stripL (lowerL tt))).1 b = true := by
    have hmem : cfg ∈ [fastingConfig, hba1cConfig, ppbsConfig, rbsConfig, ogttConfig] := by
      simp only [thresholdsFor, THRESHOLDS, List.lookup] at hth
      repeat' split at hth
      all_goals simp_all
    fin_cases hmem <;>
      exact ⟨⟨none, "Diabetes", "high"⟩, by simp [fastingConfig, hba1cConfig,
        ppbsConfig, rbsConfig, ogttConfig], by simp [bandMaxGe]⟩
  obtain ⟨b, hb⟩ := Option.isSome_iff_exists.mp (List.find?_isSome.mpr hlast)
  refine ⟨b, hb, ?_⟩
  simp only [classify_glucose, hval, if_true, hth]
  simp only [classificationOf, Option.some.injEq]
  rw [show get_classification_for_value (stripL (lowerL tt))
      (convert_to_mgdl v u (stripL (lowerL tt))).1
    = getClassAux (convert_to_mgdl v u (stripL (lowerL tt))).1 0 cfg.ranges by
      simp [get_classification_for_value, hth]]
  rw [getClassAux_classification, hb]
  rfl

/-- Witness for C1 at fasting, 105 mg/dL. -/
theorem claim_C1_witness :
    thresholdsFor (stripL (lowerL (str2list "fasting"))) = some fastingConfig ∧
    (0 : ℚ) ≤ 105 ∧
    (validate_input (stripL (lowerL (str2list "fasting"))) 105).1 = true ∧
    ∃ b, fastingConfig.ranges.find?
        (bandMaxGe (convert_to_mgdl 105 (str2list "mg/dL")
          (stripL (lowerL (str2list "fasting")))).1) = some b ∧
      classificationOf
        (classify_glucose (str2list "fasting") 105 (str2list "mg/dL")) =
          some b.classification :=
  ⟨by decide, by norm_num,
   by decide,
   claim_C1_classification_matches_band_walk.1 (str2list "fasting")
     fastingConfig 105 (str2list "mg/dL") (by decide) (by norm_num) (by decide)⟩

end BG

namespace BG

/-- Claim C3: `classify_glucose` returns the structured error dict exactly
when a validation precondition fails: the normalized test type is not one
of the five configured types, the value is negative, or the value exceeds
the sanity ceiling (20 for hba1c, 1000 for every other test type).  The
non-numeric-value precondition of the source is made vacuous here by the
rational value type.  On every other input it returns the success dict. -/
theorem claim_C3_error_iff_validation_fails :
    ∀ (tt : List Nat) (v : ℚ) (u : List Nat),
      isFailureResult (classify_glucose tt v u) = true ↔
        (thresholdsFor (stripL (lowerL tt)) = none ∨ v < 0 ∨
         (stripL (lowerL tt) = str2list "hba1c" ∧ 20 < v) ∨
         (stripL (lowerL tt) ≠ str2list "hba1c" ∧ 1000 < v)) := by
  intro tt v u
  rcases hth : thresholdsFor (stripL (lowerL tt)) with _ | cfg
  · simp [classify_glucose, validate_input, hth, isFailureResult]
  · by_cases hneg : v < 0
    · simp [classify_glucose, validate_input, hth, hneg, isFailureResult]
    · by_cases hh : stripL (lowerL tt) = str2list "hba1c"
      · have hth' : thresholdsFor (str2list "hba1c") = some hba1cConfig := rfl
        by_cases h20 : 20 < v
        · simp [classify_glucose, validate_input, hth, hth', hneg, hh, h20,
            isFailureResult]
        · simp [classify_glucose, validate_input, hth, hth', hneg, hh, h20,
            isFailureResult]
      · by_cases h1000 : 1000 < v
        · simp [classify_glucose, validate_input, hth, hneg, hh, h1000,
            isFailureResult]
        · simp [classify_glucose, validate_input, hth, hneg, hh, h1000,
            isFailureResult]

/-- Claim C10: `classify_glucose` is insensitive to case and surrounding
whitespace of the test type, and the `test_type` field of every successful
result is the lowercased, trimmed form of the argument. -/
theorem claim_C10_testtype_normalization :
    (∀ (s : List Nat) (v : ℚ) (u : List Nat),
      classify_glucose s v u = classify_glucose (lowerL (stripL s)) v u)
    ∧ (∀ (s : List Nat) (v : ℚ) (u : List Nat),
      (testTypeOf (classify_glucose s v u)).all
        (fun t => t = lowerL (stripL s)) = true) := by
  constructor
  · intro s v u
    simp only [classify_glucose, norm_testtype_idem]
  · intro s v u
    by_cases hval : (validate_input (stripL (lowerL s)) v).1 = true
    · rcases hth : thresholdsFor (stripL (lowerL s)) with _ | cfg
      · simp [classify_glucose, hval, hth, testTypeOf, Option.all]
      · simp [classify_glucose, hval, hth, testTypeOf, Option.all,
          ← strip_lower_comm]
    · simp [classify_glucose, hval, testTypeOf, Option.all]

/-- Claim C2 counterexample: at fasting with value 100 the mmol/L call
succeeds (canonical value 1800 mg/dL) while the mg/dL call at 100 × 18 is
rejected by the 1000 mg/dL sanity ceiling, so the two results differ. -/
theorem claim_C2_counterexample :
    classify_glucose (str2list "fasting") 100 (str2list "mmol/L") ≠
      classify_glucose (str2list "fasting") (100 * 18) (str2list "mg/dL") := by
  have h : (100 * 18 : ℚ) = 1800 := by norm_num
  rw [h]
  decide

/-- Claim C2 (amended): for every test type whose normalized form is not
hba1c and every value `v` with `v * 18 ≤ 1000`, classifying
`(t, v, "mmol/L")` and `(t, v * 18, "mg/dL")` return the same result up to
the echoed `original_value` / `original_unit` fields (the canonical values
agree exactly, so rounding to one decimal agrees as well). -/
theorem claim_C2_amended_unit_roundtrip :
    ∀ (tt : List Nat) (v : ℚ),
      stripL (lowerL tt) ≠ str2list "hba1c" →
      v * 18 ≤ 1000 →
      eraseOriginal (classify_glucose tt v (str2list "mmol/L")) =
        eraseOriginal (classify_glucose tt (v * 18) (str2list "mg/dL")) := by
  intro tt v hh h18
  rcases hth : thresholdsFor (stripL (lowerL tt)) with _ | cfg
  · simp [classify_glucose, validate_input, hth, eraseOriginal]
  · by_cases hneg : v < 0
    · have hneg' : v * 18 < 0 := by nlinarith
      simp [classify_glucose, validate_input, hth, hneg, hneg', eraseOriginal]
    · have h0 : (0 : ℚ) ≤ v := not_lt.mp hneg
      have hneg' : ¬ (v * 18 < 0) := by nlinarith
      have hv1000 : ¬ (1000 < v) := by nlinarith
      have hv1000' : ¬ (1000 < v * 18) := not_lt.mpr h18
      have hc1 : convert_to_mgdl v (str2list "mmol/L") (stripL (lowerL tt)) =
          (v * 18, str2list "mg/dL") := by
        unfold convert_to_mgdl
        rw [if_neg hh, if_pos (by decide :
          lowerL (str2list "mmol/L") = str2list "mmol/l" ∨
          lowerL (str2list "mmol/L") = str2list "mmol")]
        rfl
      have hc2 : convert_to_mgdl (v * 18) (str2list "mg/dL")
          (stripL (lowerL tt)) = (v * 18, str2list "mg/dL") := by
        unfold convert_to_mgdl
        rw [if_neg hh, if_neg (by decide : ¬ (
          lowerL (str2list "mg/dL") = str2list "mmol/l" ∨
          lowerL (str2list "mg/dL") = str2list "mmol"))]
      simp [classify_glucose, validate_input, hth, hneg, hneg', hh,
        hv1000, hv1000', hc1, hc2, eraseOriginal]

/-- Witness for the amended C2 at fasting, 5 mmol/L versus 90 mg/dL. -/
theorem claim_C2_amended_witness :
    stripL (lowerL (str2list "fasting")) ≠ str2list "hba1c" ∧
    (5 : ℚ) * 18 ≤ 1000 ∧
    eraseOriginal (classify_glucose (str2list "fasting") 5 (str2list "mmol/L")) =
      eraseOriginal (classify_glucose (str2list "fasting") (5 * 18)
        (str2list "mg/dL")) :=
  ⟨by decide, by norm_num,
   claim_C2_amended_unit_roundtrip (str2list "fasting") 5 (by decide) (by norm_num)⟩

end BG

namespace BG

/-! ### Report validation service (`validation_service.py`) -/

/-- The `GLUCOSE_KEYWORDS` set, in the order of the source literal
(a Python set: only membership and element count are ever observable). -/
def GLUCOSE_KEYWORDS : List (List Nat) :=
  [ str2list "glucose", str2list "blood sugar", str2list "sugar level",
    str2list "blood glucose",
    str2list "fasting", str2list "fbg", str2list "fbs",
    str2list "fasting blood sugar", str2list "fasting glucose",
    str2list "fasting blood glucose", str2list "f.b.s", str2list "f.b.g",
    str2list "hba1c", str2list "hb a1c", str2list "a1c", str2list "glycated",
    str2list "hemoglobin a1c", str2list "haemoglobin a1c",
    str2list "glycohemoglobin", str2list "glycosylated hemoglobin",
    str2list "glycosylated haemoglobin", str2list "hgba1c",
    str2list "ppbs", str2list "post prandial", str2list "postprandial",
    str2list "after meal", str2list "pp blood sugar", str2list "post meal",
    str2list "2 hour glucose", str2list "2hr glucose", str2list "2-hour glucose",
    str2list "pp glucose", str2list "pbs",
    str2list "rbs", str2list "random blood sugar", str2list "random glucose",
    str2list "r.b.s", str2list "random blood glucose",
    str2list "ogtt", str2list "oral glucose tolerance",
    str2list "glucose tolerance", str2list "gtt",
    str2list "glucose tolerance test",
    str2list "diabetic", str2list "diabetes", str2list "glycemia",
    str2list "hyperglycemia", str2list "hypoglycemia",
    str2list "prediabetes", str2list "pre-diabetes" ]

/-- One entry of the `REJECTION_KEYWORDS` dict. -/
structure RejectionDomain where
  key : String
  keywords : List (List Nat)
  display_name : String
  message : String

/-- The `REJECTION_KEYWORDS` dict, in insertion (traversal) order. -/
def REJECTION_KEYWORDS : List RejectionDomain :=
  [ { key := "haematology"
      keywords :=
        [ str2list "rbc", str2list "wbc", str2list "platelet",
          str2list "platelets", str2list "mcv", str2list "mch",
          str2list "mchc", str2list "hematocrit", str2list "haematocrit",
          str2list "neutrophil", str2list "lymphocyte", str2list "monocyte",
          str2list "eosinophil", str2list "basophil", str2list "reticulocyte",
          str2list "complete blood count", str2list "cbc",
          str2list "blood count", str2list "differential count",
          str2list "packed cell volume", str2list "pcv", str2list "esr",
          str2list "erythrocyte sedimentation", str2list "rdw",
          str2list "mpv", str2list "pdw" ]
      display_name := "Complete Blood Count (CBC) / Haematology"
      message :=
        "This appears to be a Complete Blood Count (CBC) or Haematology report. " ++
        "This app is designed to analyze glucose-related lab reports only. " ++
        "Please upload a report containing glucose tests such as Fasting Blood Sugar, " ++
        "HbA1c, Post-Prandial Blood Sugar, or similar glucose measurements." }
  , { key := "lipid"
      keywords :=
        [ str2list "cholesterol", str2list "triglyceride",
          str2list "triglycerides", str2list "hdl", str2list "ldl",
          str2list "vldl", str2list "lipid profile", str2list "lipid panel",
          str2list "total cholesterol", str2list "hdl cholesterol",
          str2list "ldl cholesterol", str2list "non-hdl",
          str2list "cholesterol ratio", str2list "atherogenic" ]
      display_name := "Lipid Profile"
      message :=
        "This appears to be a Lipid Profile report (cholesterol test). " ++
        "This app analyzes glucose-related reports only. " ++
        "Please upload a report containing glucose tests like Fasting Blood Sugar, " ++
        "HbA1c, or Oral Glucose Tolerance Test results." }
  , { key := "liver"
      keywords :=
        [ str2list "sgpt", str2list "sgot", str2list "bilirubin",
          str2list "alt", str2list "ast", str2list "albumin",
          str2list "liver function", str2list "lft", str2list "hepatic",
          str2list "alkaline phosphatase", str2list "alp", str2list "ggt",
          str2list "gamma gt", str2list "total protein", str2list "globulin",
          str2list "direct bilirubin", str2list "indirect bilirubin",
          str2list "conjugated bilirubin" ]
      display_name := "Liver Function Test (LFT)"
      message :=
        "This appears to be a Liver Function Test (LFT) report. " ++
        "This app is specifically designed for glucose analysis. " ++
        "Please upload a glucose-related report such as Fasting Blood Sugar, " ++
        "HbA1c, or Random Blood Sugar test results." }
  , { key := "kidney"
      keywords :=
        [ str2list "creatinine", str2list "urea", str2list "bun",
          str2list "gfr", str2list "egfr", str2list "kidney function",
          str2list "renal function", str2list "kft", str2list "rft",
          str2list "uric acid", str2list "blood urea nitrogen",
          str2list "microalbumin", str2list "creatinine clearance",
          str2list "cystatin" ]
      display_name := "Kidney Function Test (KFT)"
      message :=
        "This appears to be a Kidney Function Test (KFT) report. " ++
        "This app focuses on blood glucose analysis. " ++
        "Please upload a report containing glucose measurements like " ++
        "Fasting Glucose, HbA1c, or Post-Prandial Blood Sugar." }
  , { key := "thyroid"
      keywords :=
        [ str2list "tsh", str2list "t3", str2list "t4", str2list "thyroid",
          str2list "ft3", str2list "ft4", str2list "free t3",
          str2list "free t4", str2list "thyroid stimulating",
          str2list "thyroxine", str2list "triiodothyronine",
          str2list "thyroid function", str2list "thyroid profile",
          str2list "anti-tpo", str2list "tpo antibody" ]
      display_name := "Thyroid Function Test"
      message :=
        "This appears to be a Thyroid Function Test report. " ++
        "This app analyzes glucose and diabetes-related reports only. " ++
        "Please upload a report with glucose tests such as Fasting Blood Sugar, " ++
        "HbA1c, OGTT, or similar glucose measurements." }
  , { key := "urine"
      keywords :=
        [ str2list "urine routine", str2list "urinalysis",
          str2list "urine analysis", str2list "urine culture",
          str2list "specific gravity", str2list "urine ph",
          str2list "pus cells", str2list "epithelial cells",
          str2list "urine microscopy", str2list "cast", str2list "crystals",
          str2list "urine protein", str2list "urine ketone" ]
      display_name := "Urine Analysis"
      message :=
        "This appears to be a Urine Analysis report. " ++
        "This app is designed for blood glucose report analysis. " ++
        "Please upload a blood test report containing glucose measurements." }
  , { key := "cardiac"
      keywords :=
        [ str2list "troponin", str2list "ck-mb", str2list "ckmb",
          str2list "bnp", str2list "nt-probnp", str2list "cardiac markers",
          str2list "cardiac enzymes", str2list "cpk",
          str2list "creatine kinase", str2list "myoglobin", str2list "ldh",
          str2list "homocysteine" ]
      display_name := "Cardiac Markers"
      message :=
        "This appears to be a Cardiac Markers test report. " ++
        "This app specializes in glucose analysis. " ++
        "Please upload a glucose-related report like Fasting Blood Sugar or HbA1c." } ]

/-- One entry of `GLUCOSE_TEST_TYPES`. -/
structure TestTypeEntry where
  key : String
  keywords : List (List Nat)
  display_name : String

/-- The `GLUCOSE_TEST_TYPES` dict, in insertion order. -/
def GLUCOSE_TEST_TYPES : List TestTypeEntry :=
  [ { key := "fasting"
      keywords :=
        [ str2list "fasting", str2list "fbg", str2list "fbs",
          str2list "f.b.s", str2list "f.b.g", str2list "fasting glucose",
          str2list "fasting blood sugar", str2list "fasting blood glucose" ]
      display_name := "Fasting Blood Sugar (FBS)" }
  , { key := "hba1c"
      keywords :=
        [ str2list "hba1c", str2list "hb a1c", str2list "a1c",
          str2list "glycated hemoglobin", str2list "glycated haemoglobin",
          str2list "glycohemoglobin", str2list "hgba1c",
          str2list "hemoglobin a1c", str2list "haemoglobin a1c",
          str2list "glycosylated" ]
      display_name := "HbA1c (Glycated Hemoglobin)" }
  , { key := "ppbs"
      keywords :=
        [ str2list "ppbs", str2list "post prandial", str2list "postprandial",
          str2list "pp blood sugar", str2list "post meal",
          str2list "after meal", str2list "2 hour", str2list "2hr",
          str2list "2-hour", str2list "pp glucose", str2list "pbs" ]
      display_name := "Post-Prandial Blood Sugar (PPBS)" }
  , { key := "rbs"
      keywords :=
        [ str2list "rbs", str2list "random blood sugar",
          str2list "random glucose", str2list "r.b.s",
          str2list "random blood glucose" ]
      display_name := "Random Blood Sugar (RBS)" }
  , { key := "ogtt"
      keywords :=
        [ str2list "ogtt", str2list "oral glucose tolerance",
          str2list "glucose tolerance", str2list "gtt",
          str2list "glucose tolerance test" ]
      display_name := "Oral Glucose Tolerance Test (OGTT)" } ]

/-- Collapse every maximal whitespace run into a single space,
the effect of `re.sub(r'\s+', ' ', text)`. -/
def collapseWS : List Nat → List Nat
  | [] => []
  | [c] => if isSpaceN c then [32] else [c]
  | c :: d :: t =>
    if isSpaceN c && isSpaceN d then collapseWS (d :: t)
    else (if isSpaceN c then 32 else c) :: collapseWS (d :: t)

/-- `_normalize_text`: lower-case, then collapse whitespace runs. -/
def normalize_text (text : List Nat) : List Nat := collapseWS (lowerL text)

/-- Word character of the regex class `\w` on ASCII text. -/
def isWordChar (c : Nat) : Bool :=
  isDigitN c || decide (97 ≤ c ∧ c ≤ 122) || decide (65 ≤ c ∧ c ≤ 90) || c == 95

/-- Whether the character after a keyword occurrence is a word boundary. -/
def boundaryAfterOk (kw text : List Nat) : Bool :=
  match text.drop kw.length with
  | [] => true
  | c :: _ => !isWordChar c

/-- Word-boundary match of `kw` at the head of `text`, where `prev` is the
character immediately before `text` (if any). -/
def wbHere (prev : Option Nat) (kw text : List Nat) : Bool :=
  kw.isPrefixOf text &&
  (match prev with
   | none => true
   | some c => !isWordChar c) &&
  boundaryAfterOk kw text

/-- Scan for a word-boundary match of `kw` anywhere in the remaining text. -/
def wbScan (kw : List Nat) (prev : Option Nat) : List Nat → Bool
  | [] => wbHere prev kw []
  | c :: t => wbHere prev kw (c :: t) || wbScan kw (some c) t

/-- `re.search(r'\b' + kw + r'\b', text)` for an alphanumeric keyword. -/
def wbMatch (text kw : List Nat) : Bool := wbScan kw none text

/-- `_find_keywords`: short keywords (length at most 3) match on word
boundaries, longer ones by substring containment. -/
def find_keywords (text : List Nat) (kws : List (List Nat)) : List (List Nat) :=
  kws.filter (fun kw =>
    if kw.length ≤ 3 then wbMatch text kw else hasInfix text kw)

end BG

namespace BG

/-- Return dict of `validate_glucose_report`. -/
structure Verdict where
  is_valid : Bool
  confidence : ℚ
  keywords_found : List (List Nat)
  report_type_detected : String
  message : String
deriving DecidableEq

/-- `get_rejection_message`. -/
def get_rejection_message (detected_type : String) : String :=
  match REJECTION_KEYWORDS.find? (fun d => d.key == detected_type) with
  | some d => d.message
  | none =>
    "This does not appear to be a glucose-related lab report. " ++
    "This app is designed to analyze blood glucose test results. " ++
    "Please upload a report containing Fasting Blood Sugar, HbA1c, " ++
    "Post-Prandial Blood Sugar, Random Blood Sugar, or OGTT results."

/-- The `rejection_matches` dict built in `validate_glucose_report`:
per-domain keyword hits, keeping only domains with at least one hit. -/
def rejection_matches (n : List Nat) : List (String × List (List Nat)) :=
  REJECTION_KEYWORDS.filterMap (fun d =>
    let found := find_keywords n d.keywords
    if found.isEmpty then none else some (d.key, found))

/-- Python `max(keys, key=lambda k: len(matches[k]))`: the first domain in
traversal order with the most hits (later ties do not replace the leader). -/
def maxRejectionDomain : List (String × List (List Nat)) → Option String
  | [] => none
  | x :: xs =>
    some ((xs.foldl (fun best y =>
      if best.2.length < y.2.length then y else best) x).1)

/-- The glucose keyword hits of the normalized text, before the
hemoglobin special case. -/
def glucose_keywords_found (n : List Nat) : List (List Nat) :=
  find_keywords n GLUCOSE_KEYWORDS

/-- The `hemoglobin_alone` condition of `validate_glucose_report`. -/
def hemoglobin_alone (n : List Nat) : Bool :=
  hasInfix n (str2list "hemoglobin") &&
  !hasInfix n (str2list "a1c") &&
  !hasInfix n (str2list "glycated") &&
  !hasInfix n (str2list "glycosylated") &&
  !hasInfix n (str2list "hba1c")

/-- The glucose keyword list after the hemoglobin-alone stripping step. -/
def glucoseFoundFinal (n : List Nat) : List (List Nat) :=
  if hemoglobin_alone n &&
      (glucose_keywords_found n).contains (str2list "hemoglobin") then
    (glucose_keywords_found n).filter (fun k => !(k == str2list "hemoglobin"))
  else glucose_keywords_found n

/-- `validate_glucose_report`. -/
def validate_glucose_report (extracted_text : List Nat) : Verdict :=
  if extracted_text.isEmpty || (stripL extracted_text).isEmpty then
    { is_valid := false
      confidence := 0
      keywords_found := []
      report_type_detected := "unknown"
      message :=
        "No text could be extracted from the image. " ++
        "Please ensure the image is clear and contains readable text. " ++
        "Try uploading a higher quality image of your glucose lab report." }
  else
    let n := normalize_text extracted_text
    let found := glucoseFoundFinal n
    let glucose_count := found.length
    let rm := rejection_matches n
    if 2 ≤ glucose_count then
      { is_valid := true
        confidence := round2 (min (95/100) (6/10 + (glucose_count : ℚ) * (1/10)))
        keywords_found := found
        report_type_detected := "glucose"
        message := "Valid glucose report detected. Proceeding with analysis." }
    else if glucose_count = 1 then
      let total_rejection : Nat := (rm.map (fun p => p.2.length)).sum
      if 3 < total_rejection then
        { is_valid := false
          confidence := 3/10
          keywords_found := found
          report_type_detected := (maxRejectionDomain rm).getD "unknown"
          message := get_rejection_message ((maxRejectionDomain rm).getD "unknown") }
      else
        { is_valid := true
          confidence := 1/2
          keywords_found := found
          report_type_detected := "glucose"
          message :=
            "This may be a glucose report, but confidence is low. " ++
            "Results may be limited. For best results, upload a report " ++
            "that clearly shows glucose test results." }
    else
      if rm.isEmpty then
        { is_valid := false
          confidence := 0
          keywords_found := []
          report_type_detected := "unknown"
          message :=
            "Unable to identify this as a glucose report. " ++
            "Please upload a lab report containing glucose test results such as " ++
            "Fasting Blood Sugar (FBS), HbA1c, Post-Prandial Blood Sugar (PPBS), " ++
            "or Oral Glucose Tolerance Test (OGTT)." }
      else
        let detected := (maxRejectionDomain rm).getD "unknown"
        let hits := ((rm.find? (fun p => p.1 == detected)).map
          (fun p => p.2.length)).getD 0
        { is_valid := false
          confidence := round2 (min (9/10) (1/2 + (hits : ℚ) * (1/10)))
          keywords_found := []
          report_type_detected := detected
          message := get_rejection_message detected }

/-- Return dict of `detect_report_type` (the optional `details` list of the
multiple-types branch is reproduced as the entry records themselves). -/
structure DetectedType where
  type_ : String
  display_name : String
  keywords_found : List (List Nat)
  match_count : Nat
deriving DecidableEq

/-- Return dict of `detect_report_type`. -/
structure ReportType where
  test_type : String
  display_name : String
  is_multiple : Bool
  all_types : List String
  primary_type : Option String
  details : Option (List DetectedType)
deriving DecidableEq

/-- `detect_report_type`. -/
def detect_report_type (extracted_text : List Nat) : ReportType :=
  if extracted_text.isEmpty || (stripL extracted_text).isEmpty then
    { test_type := "unknown", display_name := "Unknown", is_multiple := false
      all_types := [], primary_type := none, details := none }
  else
    let n := normalize_text extracted_text
    let detected := GLUCOSE_TEST_TYPES.filterMap (fun e =>
      let found := find_keywords n e.keywords
      if found.isEmpty then none
      else some (⟨e.key, e.display_name, found, found.length⟩ : DetectedType))
    match detected with
    | [] =>
      if hasInfix n (str2list "glucose") || hasInfix n (str2list "blood sugar") then
        { test_type := "unknown", display_name := "Glucose Test (Type Unknown)"
          is_multiple := false, all_types := [], primary_type := none
          details := none }
      else
        { test_type := "unknown", display_name := "Unknown", is_multiple := false
          all_types := [], primary_type := none, details := none }
    | [d] =>
      { test_type := d.type_, display_name := d.display_name
        is_multiple := false, all_types := [d.type_], primary_type := none
        details := none }
    | _ :: _ :: _ =>
      let sorted := detected.insertionSort
        (fun a b => b.match_count ≤ a.match_count)
      { test_type := "multiple", display_name := "Multiple Glucose Tests"
        is_multiple := true, all_types := sorted.map (fun d => d.type_)
        primary_type := (sorted.head?).map (fun d => d.type_)
        details := some sorted }

/-- Return dict of `validate_image_text_quality`; optional keys of the
Python dict are `Option` fields. -/
structure QualityResult where
  is_sufficient : Bool
  word_count : Nat
  has_numbers : Bool
  has_decimal_numbers : Option Bool
  quality : Option String
  message : String
deriving DecidableEq

/-- Word count of Python `text.split()`: number of maximal nonspace runs. -/
def countWordsAux : Bool → List Nat → Nat
  | _, [] => 0
  | inWord, c :: t =>
    if isSpaceN c then countWordsAux false t
    else (if inWord then 0 else 1) + countWordsAux true t

/-- Number of words in the text. -/
def countWords (l : List Nat) : Nat := countWordsAux false l

/-- Whether `re.search(r'\d+\.?\d*', text)` succeeds, i.e. a digit occurs. -/
def hasNumbers (l : List Nat) : Bool := l.any isDigitN

/-- Whether `re.search(r'\d+\.\d+', text)` succeeds: some digit is
immediately followed by a dot and another digit. -/
def hasDecimalNumbers : List Nat → Bool
  | a :: b :: c :: t =>
    (isDigitN a && b == 46 && isDigitN c) || hasDecimalNumbers (b :: c :: t)
  | _ => false

/-- `validate_image_text_quality`. -/
def validate_image_text_quality (extracted_text : List Nat) : QualityResult :=
  if extracted_text.isEmpty then
    { is_sufficient := false, word_count := 0, has_numbers := false
      has_decimal_numbers := none, quality := none
      message := "No text was extracted from the image." }
  else
    let word_count := countWords extracted_text
    let has_numbers := hasNumbers extracted_text
    if word_count < 5 then
      { is_sufficient := false, word_count := word_count
        has_numbers := has_numbers, has_decimal_numbers := none, quality := none
        message :=
          "Very little text was extracted from the image. " ++
          "Please ensure the image is clear and well-lit. " ++
          "Try uploading a higher resolution image." }
    else if !has_numbers then
      { is_sufficient := false, word_count := word_count, has_numbers := false
        has_decimal_numbers := none, quality := none
        message :=
          "No numeric values were detected in the extracted text. " ++
          "Lab reports typically contain test values. " ++
          "Please ensure the image clearly shows the test results section." }
    else if word_count < 15 then
      { is_sufficient := true, word_count := word_count
        has_numbers := has_numbers, has_decimal_numbers := none
        quality := some "low"
        message :=
          "Limited text was extracted. Results may be incomplete. " ++
          "For best results, ensure the entire report is visible in the image." }
    else
      { is_sufficient := true, word_count := word_count
        has_numbers := has_numbers
        has_decimal_numbers := some (hasDecimalNumbers extracted_text)
        quality := some (if 30 ≤ word_count then "good" else "moderate")
        message := "Text extraction quality is sufficient for analysis." }

/-- Return dict of `comprehensive_validation`. -/
structure ComprehensiveResult where
  is_valid : Bool
  validation_stage : String
  quality : QualityResult
  report_validation : Option Verdict
  report_type : Option ReportType
  message : String
deriving DecidableEq

/-- `comprehensive_validation`: quality gate, then report validation, then
type detection. -/
def comprehensive_validation (extracted_text : List Nat) : ComprehensiveResult :=
  let quality_check := validate_image_text_quality extracted_text
  if !quality_check.is_sufficient then
    { is_valid := false, validation_stage := "quality_check"
      quality := quality_check, report_validation := none, report_type := none
      message := quality_check.message }
  else
    let report_validation := validate_glucose_report extracted_text
    if !report_validation.is_valid then
      { is_valid := false, validation_stage := "report_validation"
        quality := quality_check, report_validation := some report_validation
        report_type := none, message := report_validation.message }
    else
      let report_type := detect_report_type extracted_text
      { is_valid := true, validation_stage := "complete"
        quality := quality_check, report_validation := some report_validation
        report_type := some report_type
        message :=
          "Valid glucose report detected: " ++ report_type.display_name ++
          ". Ready for analysis." }

end BG

namespace BG

theorem round2_conf (k : ℕ) :
    round2 (min ((95 : ℚ)/100) (6/10 + (k : ℚ) * (1/10))) =
      min ((95 : ℚ)/100) (6/10 + (k : ℚ) * (1/10)) := by
  rcases le_total ((6 : ℚ)/10 + (k : ℚ) * (1/10)) (95/100) with h | h
  · rw [min_eq_right h, round2]
    have he : ((6 : ℚ)/10 + (k : ℚ) * (1/10)) * 100 = ((60 + k * 10 : ℕ) : ℚ) := by
      push_cast
      ring
    rw [he, round_natCast]
    push_cast
    ring
  · rw [min_eq_left h, round2]
    have he : ((95 : ℚ)/100) * 100 = ((95 : ℕ) : ℚ) := by norm_num
    rw [he, round_natCast]
    norm_num

/-- Claim C5: for every text that survives the empty-text guard, the report
classifier follows the ordered decision procedure: at least 2 glucose
keywords give a valid verdict with confidence `min(0.95, 0.6 + 0.1*count)`;
exactly 1 glucose keyword with more than 3 total rejection-domain hits
gives an invalid verdict with confidence 0.3 naming the rejection domain
with the most hits (first in traversal order on ties); exactly 1 glucose
keyword otherwise gives a valid verdict with confidence 0.5 and the
low-confidence advisory message. -/
theorem claim_C5_report_classifier_decision (text : List Nat)
    (h : stripL text ≠ []) :
    (2 ≤ (glucoseFoundFinal (normalize_text text)).length →
      (validate_glucose_report text).is_valid = true ∧
      (validate_glucose_report text).confidence =
        min ((95 : ℚ)/100)
          (6/10 + ((glucoseFoundFinal (normalize_text text)).length : ℚ) * (1/10)))
    ∧ ((glucoseFoundFinal (normalize_text text)).length = 1 →
        3 < ((rejection_matches (normalize_text text)).map
          (fun p => p.2.length)).sum →
        (validate_glucose_report text).is_valid = false ∧
        (validate_glucose_report text).confidence = 3/10 ∧
        (validate_glucose_report text).report_type_detected =
          (maxRejectionDomain (rejection_matches (normalize_text text))).getD
            "unknown")
    ∧ ((glucoseFoundFinal (normalize_text text)).length = 1 →
        ((rejection_matches (normalize_text text)).map
          (fun p => p.2.length)).sum ≤ 3 →
        (validate_glucose_report text).is_valid = true ∧
        (validate_glucose_report text).confidence = 1/2 ∧
        (validate_glucose_report text).message =
          "This may be a glucose report, but confidence is low. " ++
          "Results may be limited. For best results, upload a report " ++
          "that clearly shows glucose test results.") := by
  have htext : text ≠ [] := by
    intro hnil
    exact h (by simp [hnil, stripL])
  have hie : text.isEmpty = false := by
    cases text with
    | nil => exact absurd rfl htext
    | cons a t => rfl
  have hse : (stripL text).isEmpty = false := by
    cases hs : stripL text with
    | nil => exact absurd hs h
    | cons a t => rfl
  refine ⟨?_, ?_, ?_⟩
  · intro h2
    simp only [validate_glucose_report, hie, hse, Bool.or_self, if_neg,
      Bool.false_eq_true, if_false, if_pos h2]
    refine ⟨?_, ?_⟩ <;> first | trivial | exact round2_conf _
  · intro h1 h3
    have hn2 : ¬ (2 ≤ (glucoseFoundFinal (normalize_text text)).length) := by
      omega
    simp only [validate_glucose_report, hie, hse, Bool.or_self,
      Bool.false_eq_true, if_false, if_neg hn2, if_pos h1, if_pos h3]
    refine ⟨?_, ?_, ?_⟩ <;> trivial
  · intro h1 h3
    have hn2 : ¬ (2 ≤ (glucoseFoundFinal (normalize_text text)).length) := by
      omega
    have hn3 : ¬ (3 < ((rejection_matches (normalize_text text)).map
        (fun p => p.2.length)).sum) := not_lt.mpr h3
    simp only [validate_glucose_report, hie, hse, Bool.or_self,
      Bool.false_eq_true, if_false, if_neg hn2, if_pos h1, if_neg hn3]
    refine ⟨?_, ?_, ?_⟩ <;> trivial

/-- Witness for C5 on a text with two glucose keyword hits. -/
theorem claim_C5_witness :
    stripL (str2list "glucose fasting test 105") ≠ [] ∧
    2 ≤ (glucoseFoundFinal
      (normalize_text (str2list "glucose fasting test 105"))).length ∧
    (validate_glucose_report (str2list "glucose fasting test 105")).is_valid
      = true ∧
    (validate_glucose_report (str2list "glucose fasting test 105")).confidence
      = min ((95 : ℚ)/100)
        (6/10 + ((glucoseFoundFinal
          (normalize_text (str2list "glucose fasting test 105"))).length : ℚ)
          * (1/10)) :=
  ⟨by decide, by decide,
   ((claim_C5_report_classifier_decision (str2list "glucose fasting test 105")
     (by decide)).1 (by decide)).1,
   ((claim_C5_report_classifier_decision (str2list "glucose fasting test 105")
     (by decide)).1 (by decide)).2⟩

end BG

namespace BG

/-- Claim C6: in the report classifier the bare token "hemoglobin" never
survives into the glucose keyword-found list when none of "a1c",
"glycated", "glycosylated", "hba1c" appear (the hemoglobin-alone case
strips it; in fact the bare token is not a member of `GLUCOSE_KEYWORDS`, so
the stripping condition is never triggered), and the haematology-dominated
sample text is rejected with `report_type_detected = "haematology"`. -/
theorem claim_C6_hemoglobin_alone_case :
    (∀ n : List Nat, hemoglobin_alone n = true →
      str2list "hemoglobin" ∉ glucoseFoundFinal n)
    ∧ (validate_glucose_report
        (str2list "hemoglobin 13.5 wbc 7200 platelet 250000")).is_valid = false
    ∧ (validate_glucose_report
        (str2list "hemoglobin 13.5 wbc 7200 platelet 250000")).report_type_detected
        = "haematology" := by
  refine ⟨?_, by decide, by decide⟩
  intro n _ hmem
  have hsub : glucoseFoundFinal n ⊆ glucose_keywords_found n := by
    unfold glucoseFoundFinal
    split
    · exact fun a ha => List.mem_of_mem_filter ha
    · exact fun a ha => ha
  have h2 : str2list "hemoglobin" ∈ GLUCOSE_KEYWORDS := by
    have hm := hsub hmem
    rw [glucose_keywords_found, find_keywords] at hm
    exact List.mem_of_mem_filter hm
  exact absurd h2 (by decide)

/-- Witness for C6 on the haematology sample text, where the
hemoglobin-alone condition is satisfied. -/
theorem claim_C6_witness :
    hemoglobin_alone
      (normalize_text (str2list "hemoglobin 13.5 wbc 7200 platelet 250000"))
      = true ∧
    str2list "hemoglobin" ∉ glucoseFoundFinal
      (normalize_text (str2list "hemoglobin 13.5 wbc 7200 platelet 250000")) :=
  ⟨by decide,
   claim_C6_hemoglobin_alone_case.1
     (normalize_text (str2list "hemoglobin 13.5 wbc 7200 platelet 250000"))
     (by decide)⟩

theorem quality_insufficient_iff (text : List Nat) :
    (validate_image_text_quality text).is_sufficient = false ↔
      (countWords text < 5 ∨ hasNumbers text = false) := by
  by_cases hie : text.isEmpty = true
  · have hnil : text = [] := by
      cases text with
      | nil => rfl
      | cons a t => exact absurd hie (by simp)
    subst hnil
    simp [validate_image_text_quality, countWords, countWordsAux]
  · have hie' : text.isEmpty = false := by
      cases hx : text.isEmpty
      · rfl
      · exact absurd hx hie
    by_cases h5 : countWords text < 5
    · simp [validate_image_text_quality, hie', h5]
    · by_cases hnum : hasNumbers text = true
      · by_cases h15 : countWords text < 15
        · simp [validate_image_text_quality, hie', h5, hnum, h15]
        · simp [validate_image_text_quality, hie', h5, hnum, h15]
      · have hnum' : hasNumbers text = false := by
          cases hx : hasNumbers text
          · rfl
          · exact absurd hx hnum
        simp [validate_image_text_quality, hie', h5, hnum']

/-- Claim C9: the orchestrator's first stage rejects exactly when the word
count is below 5 or no digit occurs, and then the verdict carries
`validation_stage = "quality_check"`, `is_valid = false` and the later
stages' fields stay unset; word counts of at least 5 and below 15 with
digits present are flagged `quality = "low"` but pass the gate. -/
theorem claim_C9_quality_gate (text : List Nat) :
    (((comprehensive_validation text).validation_stage = "quality_check" ∧
      (comprehensive_validation text).is_valid = false ∧
      (comprehensive_validation text).report_validation = none ∧
      (comprehensive_validation text).report_type = none) ↔
      (countWords text < 5 ∨ hasNumbers text = false))
    ∧ (5 ≤ countWords text → countWords text < 15 → hasNumbers text = true →
        (validate_image_text_quality text).is_sufficient = true ∧
        (validate_image_text_quality text).quality = some "low") := by
  constructor
  · constructor
    · rintro ⟨hstage, _, _, _⟩
      by_contra hcon
      have hsuff : (validate_image_text_quality text).is_sufficient = true := by
        cases hx : (validate_image_text_quality text).is_sufficient
        · exact absurd ((quality_insufficient_iff text).mp hx) hcon
        · rfl
      by_cases hv : (validate_glucose_report text).is_valid = true
      · simp [comprehensive_validation, hsuff, hv] at hstage
      · have hv' : (validate_glucose_report text).is_valid = false := by
          cases hx : (validate_glucose_report text).is_valid
          · rfl
          · exact absurd hx hv
        simp [comprehensive_validation, hsuff, hv'] at hstage
    · intro hrhs
      have hq : (validate_image_text_quality text).is_sufficient = false :=
        (quality_insufficient_iff text).mpr hrhs
      simp [comprehensive_validation, hq]
  · intro h5 h15 hnum
    have htext : text ≠ [] := by
      intro hnil
      rw [hnil] at h5
      simp [countWords, countWordsAux] at h5
    have hie : text.isEmpty = false := by
      cases text with
      | nil => exact absurd rfl htext
      | cons a t => rfl
    have h5' : ¬ (countWords text < 5) := not_lt.mpr h5
    simp [validate_image_text_quality, hie, h5', hnum, h15]

/-- Witness for C9 on a seven-word text containing a digit. -/
theorem claim_C9_witness :
    5 ≤ countWords (str2list "a 1 b c d e f") ∧
    countWords (str2list "a 1 b c d e f") < 15 ∧
    hasNumbers (str2list "a 1 b c d e f") = true ∧
    (validate_image_text_quality (str2list "a 1 b c d e f")).is_sufficient
      = true ∧
    (validate_image_text_quality (str2list "a 1 b c d e f")).quality
      = some "low" := by
  refine ⟨by decide, by decide, by decide, ?_, ?_⟩
  · exact ((claim_C9_quality_gate (str2list "a 1 b c d e f")).2
      (by decide) (by decide) (by decide)).1
  · exact ((claim_C9_quality_gate (str2list "a 1 b c d e f")).2
      (by decide) (by decide) (by decide)).2

end BG

namespace BG

/-! ### OCR extraction service (`ocr_service.py`) -/

/-- A text block as produced by `extract_text_with_positions` (the OCR
engine itself is an external collaborator). -/
structure TextBlock where
  text : List Nat
  confidence : ℚ
  x_min : ℚ
  y_min : ℚ
  x_max : ℚ
  y_max : ℚ
  center_y : ℚ
deriving DecidableEq

/-- Python `sorted(blocks, key=lambda b: b['bbox']['center_y'])`; Python
sort is stable and so is insertion sort with a reflexive total order. -/
def sortBlocksByY (blocks : List TextBlock) : List TextBlock :=
  blocks.insertionSort (fun a b => a.center_y ≤ b.center_y)

/-- `current_row.sort(key=lambda b: b['bbox']['x_min'])`. -/
def sortRowByX (row : List TextBlock) : List TextBlock :=
  row.insertionSort (fun a b => a.x_min ≤ b.x_min)

/-- The block loop of `_group_by_rows`, carrying the open row and its
fixed reference `current_y`. -/
def groupRowsAux (y_threshold : ℚ) (current_y : ℚ)
    (current_row : List TextBlock) : List TextBlock → List (List TextBlock)
  | [] => [sortRowByX current_row]
  | b :: rest =>
    if |b.center_y - current_y| ≤ y_threshold then
      groupRowsAux y_threshold current_y (current_row ++ [b]) rest
    else
      sortRowByX current_row :: groupRowsAux y_threshold b.center_y [b] rest

/-- `_group_by_rows` (default threshold 20 at the call site). -/
def group_by_rows (text_blocks : List TextBlock) (y_threshold : ℚ) :
    List (List TextBlock) :=
  match sortBlocksByY text_blocks with
  | [] => []
  | b :: rest => groupRowsAux y_threshold b.center_y [b] rest

/-- The OCR service's per-test-type `GLUCOSE_KEYWORDS` dict. -/
def OCR_GLUCOSE_KEYWORDS : List (String × List (List Nat)) :=
  [ ("fasting",
      [ str2list "fasting", str2list "fbs", str2list "fbg",
        str2list "fasting blood sugar", str2list "fasting glucose",
        str2list "fasting blood glucose", str2list "f.b.s", str2list "f.b.g",
        str2list "fbs glucose" ])
  , ("hba1c",
      [ str2list "hba1c", str2list "hb a1c", str2list "a1c",
        str2list "glycated hemoglobin", str2list "glycated haemoglobin",
        str2list "hemoglobin a1c", str2list "haemoglobin a1c",
        str2list "glycosylated hemoglobin", str2list "glycohemoglobin",
        str2list "hgba1c" ])
  , ("ppbs",
      [ str2list "ppbs", str2list "post prandial", str2list "postprandial",
        str2list "pp blood sugar", str2list "post meal", str2list "2 hour",
        str2list "2hr", str2list "2-hour", str2list "after meal",
        str2list "pp glucose", str2list "pbs" ])
  , ("rbs",
      [ str2list "rbs", str2list "random", str2list "random blood sugar",
        str2list "random glucose", str2list "r.b.s",
        str2list "random blood glucose" ])
  , ("ogtt",
      [ str2list "ogtt", str2list "oral glucose", str2list "glucose tolerance",
        str2list "gtt", str2list "oral glucose tolerance" ]) ]

/-- `_find_test_type`: first test type (in dict order) with a keyword
contained in the lower-cased text. -/
def find_test_type (text : List Nat) : Option String :=
  let tl := lowerL text
  OCR_GLUCOSE_KEYWORDS.findSome? (fun e =>
    if e.2.any (fun kw => hasInfix tl kw) then some e.1 else none)

/-- Leftmost-position match of the regex `\d+\.?\d*` anchored at the head
of `text`: greedy digits, an optional dot, greedy digits. -/
def matchNum1At (text : List Nat) : Option (List Nat) :=
  let d1 := text.takeWhile isDigitN
  if d1.isEmpty then none
  else
    match text.drop d1.length with
    | 46 :: r2 => some (d1 ++ 46 :: r2.takeWhile isDigitN)
    | _ => some d1

/-- `re.search(r'(\d+\.?\d*)', text)`: the leftmost match. -/
def searchNum1 : List Nat → Option (List Nat)
  | [] => none
  | c :: t =>
    match matchNum1At (c :: t) with
    | some m => some m
    | none => searchNum1 t

/-- Match of `\d+,\d+` anchored at the head of `text`. -/
def matchNum2At (text : List Nat) : Option (List Nat) :=
  let d1 := text.takeWhile isDigitN
  if d1.isEmpty then none
  else
    match text.drop d1.length with
    | 44 :: r2 =>
      let d2 := r2.takeWhile isDigitN
      if d2.isEmpty then none else some (d1 ++ 44 :: d2)
    | _ => none

/-- `re.search(r'(\d+,\d+)', text)`: the leftmost match. -/
def searchNum2 : List Nat → Option (List Nat)
  | [] => none
  | c :: t =>
    match matchNum2At (c :: t) with
    | some m => some m
    | none => searchNum2 t

/-- Decimal digits to a natural number. -/
def digitsToNat (ds : List Nat) : Nat :=
  ds.foldl (fun acc d => acc * 10 + (d - 48)) 0

/-- Python `float` on a matched numeric token `digits[.digits]`. -/
def parseNumber (s : List Nat) : ℚ :=
  let ip := s.takeWhile isDigitN
  match s.drop ip.length with
  | 46 :: fp =>
    (digitsToNat ip : ℚ) + (digitsToNat fp : ℚ) / ((10 : ℚ) ^ fp.length)
  | _ => (digitsToNat ip : ℚ)

/-- `_extract_number`: try the standard-number pattern first, then the
comma-as-decimal pattern, replacing `,` by `.` before parsing. -/
def extract_number (text : List Nat) : Option ℚ :=
  match searchNum1 text with
  | some m => some (parseNumber (m.map (fun c => if c = 44 then 46 else c)))
  | none =>
    match searchNum2 text with
    | some m => some (parseNumber (m.map (fun c => if c = 44 then 46 else c)))
    | none => none

/-- Match of `mg\s*/?\s*dl|mg%` (lower-cased text) anchored at the head. -/
def isMgdlAt : List Nat → Bool
  | 109 :: 103 :: rest =>
    (match rest with
     | 37 :: _ => true
     | _ => false) ||
    (let r1 := rest.dropWhile isSpaceN
     let r2 := match r1 with
       | 47 :: t => t
       | _ => r1
     let r3 := r2.dropWhile isSpaceN
     [100, 108].isPrefixOf r3)
  | _ => false

/-- Match of `mmol\s*/?\s*l` (lower-cased text) anchored at the head. -/
def isMmolAt : List Nat → Bool
  | 109 :: 109 :: 111 :: 108 :: rest =>
    (let r1 := rest.dropWhile isSpaceN
     let r2 := match r1 with
       | 47 :: t => t
       | _ => r1
     let r3 := r2.dropWhile isSpaceN
     [108].isPrefixOf r3)
  | _ => false

/-- Whether an anchored matcher fires at some position of the text. -/
def scanAny (p : List Nat → Bool) : List Nat → Bool
  | [] => p []
  | c :: t => p (c :: t) || scanAny p t

/-- `_extract_unit`: first unit (in `UNIT_PATTERNS` order) whose pattern
matches the lower-cased text. -/
def extract_unit (text : List Nat) : Option String :=
  let tl := lowerL text
  if scanAny isMgdlAt tl then some "mg/dL"
  else if scanAny isMmolAt tl then some "mmol/L"
  else if tl.contains 37 then some "%"
  else none

/-- `_infer_unit`. -/
def infer_unit (test_type : String) (value : ℚ) : String :=
  if test_type = "hba1c" then "%"
  else if value < 30 then "mmol/L" else "mg/dL"

/-- `' '.join(texts)`. -/
def joinSp : List (List Nat) → List Nat
  | [] => []
  | [x] => x
  | x :: y :: t => x ++ 32 :: joinSp (y :: t)

/-- One detected value; `row_text` is present for row-path records and
`extraction_method` is `some "fallback"` for fallback records, mirroring
the optional dict keys. -/
structure DetectedValue where
  test_type : String
  value : ℚ
  unit : String
  confidence : ℚ
  row_text : Option (List Nat)
  extraction_method : Option String
deriving DecidableEq

/-- The per-block numeric scan of a row: extracted number and block
confidence for every block whose number passes the plausibility filter
(3 to 20 for hba1c, 1 to 700 otherwise). -/
def rowNumericHits (test_type : String) (row : List TextBlock) :
    List (ℚ × ℚ) :=
  row.filterMap (fun b =>
    match extract_number b.text with
    | none => none
    | some n =>
      if test_type = "hba1c" then
        if 3 ≤ n ∧ n ≤ 20 then some (n, b.confidence) else none
      else
        if 1 ≤ n ∧ n ≤ 700 then some (n, b.confidence) else none)

/-- The per-block unit scan of a row. -/
def rowUnits (row : List TextBlock) : List String :=
  row.filterMap (fun b => extract_unit b.text)

/-- The row loop of `extract_glucose_values`, carrying the
`processed_test_types` set; a test type is only recorded once, the first
plausible numeric value in block order is taken, units come from the first
block with a recognized unit (else inferred), and the confidence is the
average over accepted numeric blocks, rounded to 2 decimals. -/
def processRows : List (List TextBlock) → List String → List DetectedValue
  | [], _ => []
  | row :: rest, processed =>
    let row_text := joinSp (row.map (fun b => b.text))
    match find_test_type row_text with
    | none => processRows rest processed
    | some tt =>
      if tt ∈ processed then processRows rest processed
      else
        match rowNumericHits tt row with
        | [] => processRows rest processed
        | (v0, c0) :: more =>
          let unit := match rowUnits row with
            | u :: _ => u
            | [] => infer_unit tt v0
          let conf_sum := c0 + (more.map (fun p => p.2)).sum
          let len : Nat := more.length + 1
          { test_type := tt, value := v0, unit := unit
            confidence := round2 (conf_sum / (len : ℚ))
            row_text := some row_text
            extraction_method := none } :: processRows rest (tt :: processed)

/-- Keyword prefix match where `.` in the keyword is the regex wildcard
(the fallback pattern interpolates the keyword without escaping). -/
def kwWildPrefix : List Nat → List Nat → Option (List Nat)
  | [], rest => some rest
  | _ :: _, [] => none
  | c :: ks, x :: xs =>
    if c = 46 ∨ c = x then kwWildPrefix ks xs else none

/-- Match of `keyword[^\d]*(\d+\.?\d*)` anchored at the head; returns the
captured numeric group. -/
def fallbackMatchAt (kw text : List Nat) : Option (List Nat) :=
  match kwWildPrefix kw text with
  | none => none
  | some rest => matchNum1At (rest.dropWhile (fun c => !isDigitN c))

/-- `re.search` of the fallback pattern: leftmost match. -/
def fallbackSearch (kw : List Nat) : List Nat → Option (List Nat)
  | [] => fallbackMatchAt kw []
  | c :: t =>
    match fallbackMatchAt kw (c :: t) with
    | some m => some m
    | none => fallbackSearch kw t

/-- The keyword loop of `_fallback_extraction` for one test type. -/
def fallbackForType (full_lower : List Nat) (tt : String) :
    List (List Nat) → Option DetectedValue
  | [] => none
  | kw :: kws =>
    if hasInfix full_lower kw then
      match fallbackSearch kw full_lower with
      | some m =>
        let value := parseNumber m
        if (if tt = "hba1c" then ¬ (3 ≤ value ∧ value ≤ 20)
            else ¬ (1 ≤ value ∧ value ≤ 700)) then
          fallbackForType full_lower tt kws
        else
          some { test_type := tt, value := value
                 unit := infer_unit tt value, confidence := 7/10
                 row_text := none, extraction_method := some "fallback" }
      | none => fallbackForType full_lower tt kws
    else fallbackForType full_lower tt kws

/-- `_fallback_extraction`. -/
def fallback_extraction (text_blocks : List TextBlock)
    (already_found : List String) : List DetectedValue :=
  let fl := lowerL (joinSp (text_blocks.map (fun b => b.text)))
  OCR_GLUCOSE_KEYWORDS.filterMap (fun e =>
    if e.1 ∈ already_found then none else fallbackForType fl e.1 e.2)

/-- Return dict of `extract_glucose_values` (from the text blocks on: the
OCR call itself is external, and an OCR failure or empty block list returns
an empty detection list). -/
structure ExtractionResult where
  raw_text : List Nat
  detected_values : List DetectedValue
  extraction_success : Bool
deriving DecidableEq

/-- `extract_glucose_values`. -/
def extract_glucose_values (text_blocks : List TextBlock) : ExtractionResult :=
  if text_blocks.isEmpty then
    { raw_text := [], detected_values := [], extraction_success := true }
  else
    let raw_text := joinSp (text_blocks.map (fun b => b.text))
    let rows := group_by_rows text_blocks 20
    let detected := processRows rows []
    { raw_text := raw_text
      detected_values :=
        if detected.isEmpty then fallback_extraction text_blocks [] else detected
      extraction_success := true }

end BG

namespace BG

instance : DecidableRel (fun a b : TextBlock => a.x_min ≤ b.x_min) :=
  fun a b => inferInstanceAs (Decidable (a.x_min ≤ b.x_min))

instance : IsTotal TextBlock (fun a b => a.x_min ≤ b.x_min) :=
  ⟨fun a b => le_total a.x_min b.x_min⟩

instance : IsTrans TextBlock (fun a b => a.x_min ≤ b.x_min) :=
  ⟨fun _ _ _ hab hbc => le_trans hab hbc⟩

theorem sortRowByX_perm (row : List TextBlock) : (sortRowByX row).Perm row :=
  List.perm_insertionSort _ row

theorem sortRowByX_sorted (row : List TextBlock) :
    (sortRowByX row).Sorted (fun a b => a.x_min ≤ b.x_min) :=
  List.sorted_insertionSort _ row

theorem groupRowsAux_join_perm (th : ℚ) :
    ∀ (rest : List TextBlock) (cy : ℚ) (cr : List TextBlock),
      ((groupRowsAux th cy cr rest).flatten).Perm (cr ++ rest) := by
  intro rest
  induction rest with
  | nil =>
    intro cy cr
    simp only [groupRowsAux, List.flatten, List.append_nil]
    exact sortRowByX_perm cr
  | cons b t ih =>
    intro cy cr
    simp only [groupRowsAux]
    split
    · have h := ih cy (cr ++ [b])
      simpa [List.append_assoc] using h
    · simp only [List.flatten]
      have h1 := sortRowByX_perm cr
      have h2 := ih b.center_y [b]
      simpa using h1.append h2

theorem groupRowsAux_rows_sorted (th : ℚ) :
    ∀ (rest : List TextBlock) (cy : ℚ) (cr row : List TextBlock),
      row ∈ groupRowsAux th cy cr rest →
      row.Sorted (fun a b => a.x_min ≤ b.x_min) := by
  intro rest
  induction rest with
  | nil =>
    intro cy cr row hrow
    simp only [groupRowsAux, List.mem_singleton] at hrow
    exact hrow ▸ sortRowByX_sorted cr
  | cons b t ih =>
    intro cy cr row hrow
    simp only [groupRowsAux] at hrow
    split at hrow
    · exact ih cy (cr ++ [b]) row hrow
    · rcases List.mem_cons.mp hrow with h | h
      · exact h ▸ sortRowByX_sorted cr
      · exact ih b.center_y [b] row h

/-- Claim C4: row clustering emits every input block exactly once (the
concatenation of the rows is a permutation of the input), each row is
sorted left to right by `x_min`, and the empty input yields the empty row
sequence. -/
theorem claim_C4_row_clustering :
    (∀ (blocks : List TextBlock) (th : ℚ),
      ((group_by_rows blocks th).flatten).Perm blocks)
    ∧ (∀ (blocks : List TextBlock) (th : ℚ) (row : List TextBlock),
        row ∈ group_by_rows blocks th →
        row.Sorted (fun a b => a.x_min ≤ b.x_min))
    ∧ (∀ th : ℚ, group_by_rows [] th = []) := by
  refine ⟨?_, ?_, fun th => rfl⟩
  · intro blocks th
    unfold group_by_rows
    cases hs : sortBlocksByY blocks with
    | nil =>
      have hperm : sortBlocksByY blocks = blocks → ([] : List TextBlock).Perm blocks := by
        intro
        simp_all
      have h := List.perm_insertionSort
        (fun a b : TextBlock => a.center_y ≤ b.center_y) blocks
      rw [sortBlocksByY] at hs
      rw [hs] at h
      simpa using h.symm.symm
    | cons b rest =>
      have h := List.perm_insertionSort
        (fun a b : TextBlock => a.center_y ≤ b.center_y) blocks
      rw [sortBlocksByY] at hs
      rw [hs] at h
      exact (groupRowsAux_join_perm th rest b.center_y [b]).trans h
  · intro blocks th row hrow
    unfold group_by_rows at hrow
    cases hs : sortBlocksByY blocks with
    | nil => simp [hs] at hrow
    | cons b rest =>
      rw [hs] at hrow
      exact groupRowsAux_rows_sorted th rest b.center_y [b] row hrow

end BG

namespace BG

/-- Claim C7 evidence: the comma-decimal pattern of `_extract_number` is
dead code, because the standard pattern `\d+\.?\d*` always matches the
integer part first; "6,2" parses as 6, not as 6.2. -/
theorem claim_C7_comma_decimal_not_supported :
    extract_number (str2list "6,2") = some 6 ∧
    extract_number (str2list "6.2") = some (31/5) ∧
    extract_number (str2list "6,2") ≠ extract_number (str2list "6.2") := by
  have h1 : extract_number (str2list "6,2") = some 6 := by
    have h : searchNum1 (str2list "6,2") = some [54] := by decide
    simp [extract_number, h, parseNumber, digitsToNat, List.takeWhile, isDigitN]
  have h2 : extract_number (str2list "6.2") = some (31/5) := by
    have h : searchNum1 (str2list "6.2") = some [54, 46, 50] := by decide
    simp [extract_number, h, parseNumber, digitsToNat, List.takeWhile, isDigitN]
    norm_num
  refine ⟨h1, h2, ?_⟩
  rw [h1, h2]
  intro hcon
  have := Option.some.inj hcon
  norm_num at this

/-- First block of the row "Page 2 of 5 | Fasting | 105". -/
def pageBlock : TextBlock :=
  ⟨str2list "Page 2 of 5", 9/10, 0, 0, 40, 20, 10⟩

/-- Second block of the row. -/
def fastingBlock : TextBlock :=
  ⟨str2list "Fasting", 9/10, 50, 0, 70, 20, 10⟩

/-- Third block of the row. -/
def valueBlock : TextBlock :=
  ⟨str2list "105", 9/10, 100, 0, 110, 20, 10⟩

theorem extract_page_row_eval :
    (extract_glucose_values
      [pageBlock, fastingBlock, valueBlock]).detected_values =
      [{ test_type := "fasting", value := 2, unit := "mmol/L"
         confidence := 9/10
         row_text := some (str2list "Page 2 of 5 Fasting 105")
         extraction_method := none }] := by
  have hrows : group_by_rows [pageBlock, fastingBlock, valueBlock] 20 =
      [[pageBlock, fastingBlock, valueBlock]] := by
    norm_num [group_by_rows, sortBlocksByY, List.insertionSort,
      List.orderedInsert, groupRowsAux, sortRowByX, pageBlock, fastingBlock,
      valueBlock]
  have hproc : processRows [[pageBlock, fastingBlock, valueBlock]] [] =
      [{ test_type := "fasting", value := 2, unit := "mmol/L"
         confidence := 9/10
         row_text := some (str2list "Page 2 of 5 Fasting 105")
         extraction_method := none }] := by
    have hft : find_test_type (str2list "Page 2 of 5 Fasting 105") =
        some "fasting" := by decide
    have hhits : rowNumericHits "fasting" [pageBlock, fastingBlock, valueBlock]
        = [(2, 9/10), (105, 9/10)] := by
      have e1 : extract_number (str2list "Page 2 of 5") = some 2 := by
        have h : searchNum1 (str2list "Page 2 of 5") = some [50] := by decide
        simp [extract_number, h, parseNumber, digitsToNat, List.takeWhile,
          isDigitN]
      have e2 : extract_number (str2list "Fasting") = none := by decide
      have e3 : extract_number (str2list "105") = some 105 := by
        have h : searchNum1 (str2list "105") = some [49, 48, 53] := by decide
        simp [extract_number, h, parseNumber, digitsToNat, List.takeWhile,
          isDigitN]
      simp only [rowNumericHits, List.filterMap_cons, pageBlock, fastingBlock,
        valueBlock, e1, e2, e3]
      norm_num
      simp
    have hunits : rowUnits [pageBlock, fastingBlock, valueBlock] = [] := by
      decide
    have hjoin : joinSp (List.map (fun b => b.text)
        [pageBlock, fastingBlock, valueBlock]) =
        str2list "Page 2 of 5 Fasting 105" := by decide
    simp only [processRows, hjoin, hft, hhits, hunits]
    norm_num [infer_unit, round2]
    simp
  simp only [extract_glucose_values, hrows, hproc]
  simp [List.isEmpty]

/-- Claim C8 counterexample: on the clustered row "Page 2 of 5", "Fasting",
"105" the extractor does not produce 105 — the page number 2 lies inside
the 1 to 700 plausibility window and is the first plausible numeric value
in block order, so the detected fasting value is 2. -/
theorem claim_C8_counterexample :
    (extract_glucose_values
      [pageBlock, fastingBlock, valueBlock]).detected_values.map
        DetectedValue.value ≠ [105] ∧
    (extract_glucose_values
      [pageBlock, fastingBlock, valueBlock]).detected_values.map
        DetectedValue.value = [2] := by
  rw [extract_page_row_eval]
  refine ⟨?_, by simp⟩
  intro hcon
  simp only [List.map_cons, List.map_nil, List.cons.injEq] at hcon
  norm_num at hcon

/-- Claim C8 (amended): on that row the extractor takes the first plausible
numeric value in block order; the plausibility window (1 to 700 for
non-hba1c types) admits the page number 2, so the DetectedValue for
fasting carries value 2 with unit inferred as mmol/L. -/
theorem claim_C8_amended_first_plausible_value :
    (extract_glucose_values
      [pageBlock, fastingBlock, valueBlock]).detected_values =
      [{ test_type := "fasting", value := 2, unit := "mmol/L"
         confidence := 9/10
         row_text := some (str2list "Page 2 of 5 Fasting 105")
         extraction_method := none }] :=
  extract_page_row_eval

end BG

namespace BG

/-- Witness for C4's sortedness part on a one-block input. -/
theorem claim_C4_witness :
    [pageBlock] ∈ group_by_rows [pageBlock] 20 ∧
    ([pageBlock] : List TextBlock).Sorted (fun a b => a.x_min ≤ b.x_min) := by
  have h : group_by_rows [pageBlock] 20 = [[pageBlock]] := rfl
  have hmem : [pageBlock] ∈ group_by_rows [pageBlock] 20 := by
    rw [h]
    exact List.mem_singleton_self _
  exact ⟨hmem, claim_C4_row_clustering.2.1 [pageBlock] 20 [pageBlock] hmem⟩

end BG
